import Mathlib

/-!
# Intervals: the restriction scheduler

A shallow embedding of `scheduler.go` (package `scheduler`) and the properties of
its restriction check.

Modelling conventions.

* Go `int64` values are integers; every `int64` operation of the source is followed
  by an explicit two's-complement wrap (`wrap64`).  Go `int` and `uint` are 64 bits wide.
* Go `float64` offsets are modelled by the rational number they denote (every finite
  `float64` is a rational; NaN and the infinities are outside the model).  The
  subtraction of two offsets is the IEEE-754 one: the exact difference rounded to the
  nearest binary64 value, ties to even (`f64Sub`).
* A Go slice is `Option (List α)`: `none` is the `nil` slice, `some []` an empty
  non-nil slice.
* The logger `L` only observes; it is left out (a non-nil logger is assumed).
* `time.Unix(sec, 0)` yields an instant in the process-wide local zone `time.Local`;
  the zone is an explicit parameter `loc`.  Go derives every calendar field from an
  unsigned 64-bit count of seconds since its absolute epoch, so that count is reduced
  modulo 2^64 (`Time.absSec`).  The calendar accessors follow the Go standard library
  (`absDate`, `absWeekday`, `ISOWeek`, `absClock`), with days counted from 0001-01-01 of
  the proleptic Gregorian calendar.
-/

namespace scheduler

/-! ## Machine integers -/

/-- Two's-complement reduction of an integer into the `int64` range. -/
def wrap64 (x : Int) : Int := (x + 9223372036854775808) % 18446744073709551616 - 9223372036854775808

/-- Predicate: the integer is representable as an `int64`. -/
def inInt64 (x : Int) : Prop := -9223372036854775808 ≤ x ∧ x ≤ 9223372036854775807

instance (x : Int) : Decidable (inInt64 x) := by unfold inInt64; infer_instance

/-- Go `a + b` on `int64`. -/
def add64 (a b : Int) : Int := wrap64 (a + b)

/-- Go `a * b` on `int64`. -/
def mul64 (a b : Int) : Int := wrap64 (a * b)

/-- Go conversion `int64(u)` of a `uint` value. -/
def int64OfUint (u : Nat) : Int := wrap64 (u : Int)

/-- Truncation of a rational toward zero. -/
def truncQ (q : ℚ) : Int := if 0 ≤ q then ⌊q⌋ else ⌈q⌉

/-- Rounding of a rational to the nearest integer, a tie going to the even neighbour. -/
def roundHalfEven (x : ℚ) : Int :=
  if x - ⌊x⌋ < 1 / 2 then ⌊x⌋
  else if 1 / 2 < x - ⌊x⌋ then ⌊x⌋ + 1
  else if ⌊x⌋ % 2 = 0 then ⌊x⌋ else ⌊x⌋ + 1

/-- IEEE-754 binary64 rounding (to nearest, ties to even) of a rational: the value is
scaled by the unit in the last place of its binade (53 significant bits, exponents from
-1022 up, subnormals below), rounded to an integer and scaled back.  A result beyond the
largest `float64` stands for an infinity; it is far outside `int64` either way. -/
def f64Round (q : ℚ) : ℚ :=
  if q = 0 then 0
  else
    let e : Int := max (Int.log 2 |q|) (-1022)
    let ulp : ℚ := (2 : ℚ) ^ (e - 52)
    (roundHalfEven (q / ulp) : ℚ) * ulp

/-- Go `a - b` on `float64`. -/
def f64Sub (a b : ℚ) : ℚ := f64Round (a - b)

/-- Go conversion `int64(f)` of a finite `float64`: the fraction is discarded
(truncation toward zero).  For a value outside the `int64` range the Go result is
implementation-specific; the model takes the amd64 result, the least `int64`. -/
def int64OfFloat (f : ℚ) : Int :=
  if inInt64 (truncQ f) then truncQ f else -9223372036854775808

/-! ## The part of Go's `time` package the scheduler uses -/

/-- Model of `time.Location`: the offset, in seconds east of UTC, in effect at a Unix instant. -/
structure Location where
  offset : Int → Int

/-- A zone with the same offset at every instant. -/
def Location.fixed (secs : Int) : Location := ⟨fun _ => secs⟩

/-- Model of `time.Time` as produced by `time.Unix`: Unix seconds and the zone. -/
structure Time where
  sec : Int
  loc : Location

/-- Go `time.Unix(sec, 0)`, in the local zone `loc`. -/
def Unix (loc : Location) (sec : Int) : Time := ⟨sec, loc⟩

def secondsPerDay : Int := 86400

/-- Days from 0001-01-01 to 1970-01-01. -/
def unixToInternalDays : Int := 719162

/-- Go `internalToAbsolute`: seconds from the absolute epoch (1 March of the year
-292277022400) to 0001-01-01: `(absoluteYears * 365.2425 + marchThruDecember) *
secondsPerDay`.  Releases before Go 1.23 count from 1 January of the year -292277022399,
306 days later, and reduce the count in the same way. -/
def internalToAbsolute : Int := (292277022400 * 3652425 / 10000 + 306) * secondsPerDay

/-- Go `unixToAbsolute`, that is `unixToInternal + internalToAbsolute`. -/
def unixToAbsolute : Int := unixToInternalDays * secondsPerDay + internalToAbsolute

/-- Go `Time.absSec` (`Time.abs` before Go 1.23): the zone-adjusted seconds since the
absolute epoch, as the `uint64` Go computes: reduced modulo 2^64. -/
def Time.absSec (t : Time) : Int :=
  (t.sec + t.loc.offset t.sec + unixToAbsolute) % 18446744073709551616

/-- The count of `Time.absSec` re-based to 0001-01-01 00:00:00, from where the calendar
functions below count.  For an instant at or after the absolute epoch it is the plain sum
of the Unix time, the zone offset and the seconds from 0001-01-01 to 1970-01-01. -/
def Time.abs (t : Time) : Int := t.absSec - internalToAbsolute

/-- Go `isLeap`. -/
def isLeap (year : Int) : Bool := year % 4 == 0 && (year % 100 != 0 || year % 400 == 0)

/-- Go `daysBefore[m]`: days in a non-leap year before month `m + 1`. -/
def daysBefore (m : Int) : Int :=
  if m = 0 then 0 else if m = 1 then 31 else if m = 2 then 59 else if m = 3 then 90
  else if m = 4 then 120 else if m = 5 then 151 else if m = 6 then 181 else if m = 7 then 212
  else if m = 8 then 243 else if m = 9 then 273 else if m = 10 then 304 else if m = 11 then 334
  else 365

/-- Go `absDate(abs, false)`: the year and the zero-based day of the year. -/
def absYearDay (abs : Int) : Int × Int :=
  let d := abs / secondsPerDay
  -- 400-year cycles
  let n400 := d / 146097
  let d := d - 146097 * n400
  -- 100-year cycles; the last one has an extra leap day
  let n100 := d / 36524
  let n100 := n100 - n100 / 4
  let d := d - 36524 * n100
  -- 4-year cycles
  let n4 := d / 1461
  let d := d - 1461 * n4
  -- years within a 4-year cycle
  let n := d / 365
  let n := n - n / 4
  let d := d - 365 * n
  (400 * n400 + 100 * n100 + 4 * n4 + n + 1, d)

/-- Go `absDate(abs, true)`: year, month (1..12), day of month, day of year. -/
def absDate (abs : Int) : Int × Int × Int × Int :=
  let year := (absYearDay abs).1
  let yday := (absYearDay abs).2
  if isLeap year && yday == 31 + 29 - 1 then (year, 2, 29, yday)
  else
    let day := if isLeap year && decide (yday > 31 + 29 - 1) then yday - 1 else yday
    let month := day / 31
    let e := daysBefore (month + 1)
    if day ≥ e then (year, month + 2, day - e + 1, yday)
    else (year, month + 1, day - daysBefore month + 1, yday)

/-- Go `absWeekday`: 0 is Sunday; 0001-01-01 is a Monday. -/
def absWeekday (abs : Int) : Int := ((abs + 1 * secondsPerDay) % (7 * secondsPerDay)) / secondsPerDay

/-- Go `absClock`: hour, minute and second within the day. -/
def absClock (abs : Int) : Int × Int × Int :=
  let sec := abs % secondsPerDay
  let hour := sec / 3600
  let sec := sec - hour * 3600
  let min := sec / 60
  let sec := sec - min * 60
  (hour, min, sec)

def Time.Month (t : Time) : Int := (absDate t.abs).2.1

def Time.Day (t : Time) : Int := (absDate t.abs).2.2.1

def Time.Weekday (t : Time) : Int := absWeekday t.abs

def Time.Hour (t : Time) : Int := (absClock t.abs).1

def Time.Minute (t : Time) : Int := (absClock t.abs).2.1

/-- Go `Time.ISOWeek`: year and week number of the Thursday of the instant's week. -/
def Time.ISOWeek (t : Time) : Int × Int :=
  let d := 4 - absWeekday t.abs
  let d := if d = 4 then -3 else d
  let yd := absYearDay (t.abs + d * secondsPerDay)
  (yd.1, yd.2 / 7 + 1)

/-! ## Data model -/

abbrev Month := Int
structure IntervalMonth where
  From : Month
  To : Month

abbrev Week := Int
structure IntervalWeek where
  From : Week
  To : Week

abbrev Day := Int
structure IntervalDay where
  From : Day
  To : Day

abbrev Hour := Int
structure IntervalHour where
  From : Hour
  To : Hour

abbrev Minute := Int
structure IntervalMinute where
  From : Minute
  To : Minute

/-- A Go slice: `none` is `nil`. -/
abbrev Slice (α : Type) := Option (List α)

/-- The elements of a slice, in order. -/
def Slice.elems {α : Type} : Slice α → List α
  | none => []
  | some xs => xs

structure Intervals where
  Months : Slice IntervalMonth := none
  DaysOfMonth : Slice IntervalDay := none
  DaysOfWeek : Slice IntervalDay := none
  Weeks : Slice IntervalWeek := none
  Hours : Slice IntervalHour := none
  Minutes : Slice IntervalMinute := none

structure Restriction extends Intervals where
  GMTOffset : ℚ := 0
  translatedTime : Int := 0

/-! ## The preset and the checks -/

/-- Go `allRestrict`: the preset with one interval in every dimension. -/
def allRestrict : Restriction :=
  { Months := some [{ From := 1, To := 12 }]
    Weeks := some [{ From := 1, To := 52 }]
    DaysOfMonth := some [{ From := 1, To := 31 }]
    DaysOfWeek := some [{ From := 1, To := 7 }]
    Hours := some [{ From := 0, To := 23 }]
    Minutes := some [{ From := 0, To := 59 }]
    GMTOffset := 3 }

/-- The `for _, interval := range r.Months` loop of `checkMonth`. -/
def loopMonths (reqMonth : Month) : List IntervalMonth → Bool
  | [] => false
  | interval :: rest =>
    if interval.From ≤ reqMonth ∧ reqMonth ≤ interval.To then true else loopMonths reqMonth rest

/-- The `for _, interval := range r.Weeks` loop of `checkWeek`. -/
def loopWeeks (reqWeek : Week) : List IntervalWeek → Bool
  | [] => false
  | interval :: rest =>
    if interval.From ≤ reqWeek ∧ reqWeek ≤ interval.To then true else loopWeeks reqWeek rest

/-- The `for _, interval := range` loop of `checkDayOfMonth` and of `checkDayOfWeek`. -/
def loopDays (reqDay : Day) : List IntervalDay → Bool
  | [] => false
  | interval :: rest =>
    if interval.From ≤ reqDay ∧ reqDay ≤ interval.To then true else loopDays reqDay rest

/-- The `for _, interval := range r.Hours` loop of `checkHour`. -/
def loopHours (reqHour : Hour) : List IntervalHour → Bool
  | [] => false
  | interval :: rest =>
    if interval.From ≤ reqHour ∧ reqHour ≤ interval.To then true else loopHours reqHour rest

/-- The `for _, interval := range r.Minutes` loop of `checkMinute`. -/
def loopMinutes (reqMinute : Minute) : List IntervalMinute → Bool
  | [] => false
  | interval :: rest =>
    if interval.From ≤ reqMinute ∧ reqMinute ≤ interval.To then true
    else loopMinutes reqMinute rest

def Restriction.checkMonth (loc : Location) (r : Restriction) : Bool :=
  match r.Months with
  | none => false
  | some months =>
    let reqMonth : Month := (Unix loc r.translatedTime).Month
    loopMonths reqMonth months

def Restriction.checkWeek (loc : Location) (r : Restriction) : Bool :=
  match r.Weeks with
  | none => false
  | some weeks =>
    let reqWeek : Week := (Unix loc r.translatedTime).ISOWeek.2
    loopWeeks reqWeek weeks

def Restriction.checkDayOfMonth (loc : Location) (r : Restriction) : Bool :=
  match r.DaysOfMonth with
  | none => false
  | some days =>
    let reqDay : Day := (Unix loc r.translatedTime).Day
    loopDays reqDay days

def Restriction.checkDayOfWeek (loc : Location) (r : Restriction) : Bool :=
  match r.DaysOfWeek with
  | none => false
  | some days =>
    let reqDay : Day := (Unix loc r.translatedTime).Weekday
    loopDays reqDay days

def Restriction.checkHour (loc : Location) (r : Restriction) : Bool :=
  match r.Hours with
  | none => false
  | some hours =>
    let reqHour : Hour := (Unix loc r.translatedTime).Hour
    loopHours reqHour hours

def Restriction.checkMinute (loc : Location) (r : Restriction) : Bool :=
  match r.Minutes with
  | none => false
  | some minutes =>
    let reqMinute : Minute := (Unix loc r.translatedTime).Minute
    loopMinutes reqMinute minutes

/-- Go `(*Restriction).checks`: the six checks in order, returning at the first hit. -/
def Restriction.checks (loc : Location) (r : Restriction) : Bool :=
  if r.checkMonth loc then true
  else if r.checkWeek loc then true
  else if r.checkDayOfMonth loc then true
  else if r.checkDayOfWeek loc then true
  else if r.checkHour loc then true
  else if r.checkMinute loc then true
  else false

/-- Go `(*Restriction).Check`: stores the translated instant in the receiver, then runs
`checks`.  The result is the boolean together with the receiver after the call. -/
def Restriction.Check (loc : Location) (r : Restriction) (requestOffset : ℚ)
    (requestTime : Int) (estimatedDurationSecs : Nat) : Bool × Restriction :=
  let translated : Int :=
    add64 (add64 requestTime (mul64 (int64OfFloat (f64Sub requestOffset r.GMTOffset)) 3600))
      (int64OfUint estimatedDurationSecs)
  let r1 : Restriction := { r with translatedTime := translated }
  (r1.checks loc, r1)

/-- Go `(*Restriction).CheckNoOffset`. -/
def Restriction.CheckNoOffset (loc : Location) (r : Restriction)
    (requestTime : Int) (estimatedDurationSecs : Nat) : Bool × Restriction :=
  let translated : Int := add64 requestTime (int64OfUint estimatedDurationSecs)
  let r1 : Restriction := { r with translatedTime := translated }
  (r1.checks loc, r1)

/-! ## Specification-side definitions -/

/-- The translated instant in the words of the specification (section 4.1):
`requestTime + round((requestOffset − referenceOffset) * 3600) + estimatedDurationSeconds`,
over unbounded integers.  It is what the source is compared with, not a model of it. -/
def specTranslate (requestOffset referenceOffset : ℚ) (requestTime : Int)
    (estimatedDurationSeconds : Nat) : Int :=
  requestTime + round ((requestOffset - referenceOffset) * 3600) + estimatedDurationSeconds

/-- The configuration is restricted at the instant `t`: `checks` on the receiver whose
scratch field holds `t`. -/
def Restriction.restrictedAt (loc : Location) (r : Restriction) (t : Int) : Bool :=
  ({ r with translatedTime := t } : Restriction).checks loc

/-! ## Basic lemmas -/

theorem loopMonths_iff (v : Month) (xs : List IntervalMonth) :
    loopMonths v xs = true ↔ ∃ i ∈ xs, i.From ≤ v ∧ v ≤ i.To := by
  induction xs with
  | nil => simp [loopMonths]
  | cons x rest ih =>
    by_cases h : x.From ≤ v ∧ v ≤ x.To
    · simp [loopMonths, h]
    · simp [loopMonths, h, ih]

theorem loopWeeks_iff (v : Week) (xs : List IntervalWeek) :
    loopWeeks v xs = true ↔ ∃ i ∈ xs, i.From ≤ v ∧ v ≤ i.To := by
  induction xs with
  | nil => simp [loopWeeks]
  | cons x rest ih =>
    by_cases h : x.From ≤ v ∧ v ≤ x.To
    · simp [loopWeeks, h]
    · simp [loopWeeks, h, ih]

theorem loopDays_iff (v : Day) (xs : List IntervalDay) :
    loopDays v xs = true ↔ ∃ i ∈ xs, i.From ≤ v ∧ v ≤ i.To := by
  induction xs with
  | nil => simp [loopDays]
  | cons x rest ih =>
    by_cases h : x.From ≤ v ∧ v ≤ x.To
    · simp [loopDays, h]
    · simp [loopDays, h, ih]

theorem loopHours_iff (v : Hour) (xs : List IntervalHour) :
    loopHours v xs = true ↔ ∃ i ∈ xs, i.From ≤ v ∧ v ≤ i.To := by
  induction xs with
  | nil => simp [loopHours]
  | cons x rest ih =>
    by_cases h : x.From ≤ v ∧ v ≤ x.To
    · simp [loopHours, h]
    · simp [loopHours, h, ih]

theorem loopMinutes_iff (v : Minute) (xs : List IntervalMinute) :
    loopMinutes v xs = true ↔ ∃ i ∈ xs, i.From ≤ v ∧ v ≤ i.To := by
  induction xs with
  | nil => simp [loopMinutes]
  | cons x rest ih =>
    by_cases h : x.From ≤ v ∧ v ≤ x.To
    · simp [loopMinutes, h]
    · simp [loopMinutes, h, ih]

theorem checkMonth_iff (loc : Location) (r : Restriction) :
    r.checkMonth loc = true ↔
      ∃ i ∈ r.Months.elems, i.From ≤ (Unix loc r.translatedTime).Month ∧
        (Unix loc r.translatedTime).Month ≤ i.To := by
  unfold Restriction.checkMonth
  cases h : r.Months with
  | none => simp [Slice.elems]
  | some xs => simp [Slice.elems, loopMonths_iff]

theorem checkWeek_iff (loc : Location) (r : Restriction) :
    r.checkWeek loc = true ↔
      ∃ i ∈ r.Weeks.elems, i.From ≤ (Unix loc r.translatedTime).ISOWeek.2 ∧
        (Unix loc r.translatedTime).ISOWeek.2 ≤ i.To := by
  unfold Restriction.checkWeek
  cases h : r.Weeks with
  | none => simp [Slice.elems]
  | some xs => simp [Slice.elems, loopWeeks_iff]

theorem checkDayOfMonth_iff (loc : Location) (r : Restriction) :
    r.checkDayOfMonth loc = true ↔
      ∃ i ∈ r.DaysOfMonth.elems, i.From ≤ (Unix loc r.translatedTime).Day ∧
        (Unix loc r.translatedTime).Day ≤ i.To := by
  unfold Restriction.checkDayOfMonth
  cases h : r.DaysOfMonth with
  | none => simp [Slice.elems]
  | some xs => simp [Slice.elems, loopDays_iff]

theorem checkDayOfWeek_iff (loc : Location) (r : Restriction) :
    r.checkDayOfWeek loc = true ↔
      ∃ i ∈ r.DaysOfWeek.elems, i.From ≤ (Unix loc r.translatedTime).Weekday ∧
        (Unix loc r.translatedTime).Weekday ≤ i.To := by
  unfold Restriction.checkDayOfWeek
  cases h : r.DaysOfWeek with
  | none => simp [Slice.elems]
  | some xs => simp [Slice.elems, loopDays_iff]

theorem checkHour_iff (loc : Location) (r : Restriction) :
    r.checkHour loc = true ↔
      ∃ i ∈ r.Hours.elems, i.From ≤ (Unix loc r.translatedTime).Hour ∧
        (Unix loc r.translatedTime).Hour ≤ i.To := by
  unfold Restriction.checkHour
  cases h : r.Hours with
  | none => simp [Slice.elems]
  | some xs => simp [Slice.elems, loopHours_iff]

theorem checkMinute_iff (loc : Location) (r : Restriction) :
    r.checkMinute loc = true ↔
      ∃ i ∈ r.Minutes.elems, i.From ≤ (Unix loc r.translatedTime).Minute ∧
        (Unix loc r.translatedTime).Minute ≤ i.To := by
  unfold Restriction.checkMinute
  cases h : r.Minutes with
  | none => simp [Slice.elems]
  | some xs => simp [Slice.elems, loopMinutes_iff]

theorem checks_iff (loc : Location) (r : Restriction) :
    r.checks loc = true ↔
      (r.checkMonth loc = true ∨ r.checkWeek loc = true ∨ r.checkDayOfMonth loc = true ∨
        r.checkDayOfWeek loc = true ∨ r.checkHour loc = true ∨ r.checkMinute loc = true) := by
  unfold Restriction.checks
  cases r.checkMonth loc <;> cases r.checkWeek loc <;> cases r.checkDayOfMonth loc <;>
    cases r.checkDayOfWeek loc <;> cases r.checkHour loc <;> cases r.checkMinute loc <;> simp

/-! ## Calendar lemmas -/

theorem absYearDay_bounds (abs : Int) :
    0 ≤ (absYearDay abs).2 ∧ (absYearDay abs).2 ≤ 365 ∧
      ((absYearDay abs).2 = 365 → isLeap (absYearDay abs).1 = true) := by
  simp only [absYearDay, isLeap, secondsPerDay]
  generalize abs / 86400 = D
  generalize hq : D / 146097 = q
  generalize ha : (D - 146097 * q) / 36524 = a
  generalize hb : (D - 146097 * q - 36524 * (a - a / 4)) / 1461 = b
  generalize hc : (D - 146097 * q - 36524 * (a - a / 4) - 1461 * b) / 365 = c
  have ha4 : 0 ≤ a ∧ a ≤ 4 := by omega
  have hc4 : 0 ≤ c ∧ c ≤ 4 := by omega
  obtain ⟨ha0, ha1⟩ := ha4
  obtain ⟨hc0, hc1⟩ := hc4
  refine ⟨by omega, by omega, ?_⟩
  intro h
  simp only [Bool.and_eq_true, Bool.or_eq_true, beq_iff_eq, bne_iff_ne, ne_eq]
  interval_cases a <;> interval_cases c <;> omega

theorem daysBefore_estimate (day : Int) (h1 : day ≤ 364)
    (hge : day ≥ daysBefore (day / 31 + 1)) : day / 31 ≤ 10 := by
  by_contra hcon
  have hm : day / 31 = 11 := by omega
  rw [hm] at hge
  have h12 : daysBefore (11 + 1) = 365 := by decide
  omega

theorem absDate_month_bounds (abs : Int) :
    1 ≤ (absDate abs).2.1 ∧ (absDate abs).2.1 ≤ 12 := by
  obtain ⟨h0, h1, h2⟩ := absYearDay_bounds abs
  have ka := daysBefore_estimate (absYearDay abs).2
  have kb := daysBefore_estimate ((absYearDay abs).2 - 1)
  dsimp only [absDate]
  generalize (absYearDay abs).1 = year at *
  generalize (absYearDay abs).2 = yday at *
  split_ifs with c1 c2 c3 c3
  · exact ⟨by norm_num, by norm_num⟩
  · simp only [Bool.and_eq_true, decide_eq_true_eq] at c2
    dsimp only
    omega
  · simp only [Bool.and_eq_true, decide_eq_true_eq] at c2
    dsimp only
    omega
  · have h3 : yday ≤ 364 := by
      by_contra hcon
      have h365 : yday = 365 := by omega
      have hleap := h2 h365
      simp [hleap, h365] at c2
    dsimp only
    omega
  · dsimp only
    omega

theorem Time.Month_bounds (t : Time) : 1 ≤ t.Month ∧ t.Month ≤ 12 := absDate_month_bounds t.abs

/-! ## Float lemmas -/

theorem int64OfFloat_zero : int64OfFloat 0 = 0 := by
  simp [int64OfFloat, truncQ, inInt64]

theorem truncQ_eq_of_nonneg (q : ℚ) (n : Int) (h0 : 0 ≤ q) (h1 : (n : ℚ) ≤ q)
    (h2 : q < n + 1) : truncQ q = n := by
  rw [truncQ, if_pos h0, Int.floor_eq_iff]
  exact ⟨h1, h2⟩

theorem truncQ_eq_of_neg (q : ℚ) (n : Int) (h0 : q < 0) (h1 : (n : ℚ) - 1 < q)
    (h2 : q ≤ n) : truncQ q = n := by
  rw [truncQ, if_neg (not_le.mpr h0), Int.ceil_eq_iff]
  exact ⟨h1, h2⟩

theorem int64OfFloat_intCast (k : Int) (h : inInt64 k) : int64OfFloat (k : ℚ) = k := by
  have hkq : truncQ (k : ℚ) = k := by
    unfold truncQ
    split <;> simp
  rw [int64OfFloat, hkq, if_pos h]

theorem roundHalfEven_intCast (n : Int) : roundHalfEven (n : ℚ) = n := by
  simp [roundHalfEven]

theorem f64Sub_self (a : ℚ) : f64Sub a a = 0 := by simp [f64Sub, f64Round]

theorem log2_eq (q : ℚ) (e : Int) (h0 : 0 < q) (h1 : (2 : ℚ) ^ e ≤ q)
    (h2 : q < (2 : ℚ) ^ (e + 1)) : Int.log 2 q = e := by
  have hb : 1 < 2 := by norm_num
  have a : e ≤ Int.log 2 q := (Int.zpow_le_iff_le_log hb h0).mp (by exact_mod_cast h1)
  have b : Int.log 2 q < e + 1 := (Int.lt_zpow_iff_log_lt hb h0).mp (by exact_mod_cast h2)
  omega

/-- A value with at most 53 significant bits in its binade is its own rounding. -/
theorem f64Round_eq_self (q : ℚ) (e n : Int) (hq : q ≠ 0) (he : -1022 ≤ e)
    (h1 : (2 : ℚ) ^ e ≤ |q|) (h2 : |q| < (2 : ℚ) ^ (e + 1))
    (hn : q = (n : ℚ) * (2 : ℚ) ^ (e - 52)) : f64Round q = q := by
  have hlog : Int.log 2 |q| = e := log2_eq _ e (abs_pos.mpr hq) h1 h2
  have hpos : (2 : ℚ) ^ (e - 52) ≠ 0 := zpow_ne_zero _ (by norm_num)
  have hdiv : q / (2 : ℚ) ^ (e - 52) = (n : ℚ) := by
    rw [hn]; field_simp
  simp only [f64Round, if_neg hq, hlog, max_eq_left he, hdiv, roundHalfEven_intCast]
  exact hn.symm

/-- Integers below 2^53 in magnitude are `float64` values: rounding leaves them alone. -/
theorem f64Round_intCast (k : Int)
    (hk : -9007199254740992 < k ∧ k < 9007199254740992) : f64Round (k : ℚ) = k := by
  by_cases h0 : k = 0
  · subst h0
    simp [f64Round]
  have hkabs : |k| < 9007199254740992 := abs_lt.mpr hk
  have hq : (k : ℚ) ≠ 0 := by exact_mod_cast h0
  have hpos : 0 < |(k : ℚ)| := abs_pos.mpr hq
  have hb : 1 < 2 := by norm_num
  have hone : (1 : ℚ) ≤ |(k : ℚ)| := by
    have : (1 : Int) ≤ |k| := Int.one_le_abs h0
    exact_mod_cast this
  have hlt : |(k : ℚ)| < (2 : ℚ) ^ (53 : Int) := by
    have : ((|k| : Int) : ℚ) < ((9007199254740992 : Int) : ℚ) := by exact_mod_cast hkabs
    rw [Int.cast_abs] at this
    calc |(k : ℚ)| < ((9007199254740992 : Int) : ℚ) := this
      _ = (2 : ℚ) ^ (53 : Int) := by norm_num
  have he0 : 0 ≤ Int.log 2 |(k : ℚ)| :=
    (Int.zpow_le_iff_le_log hb hpos).mp (by simpa using hone)
  have he1 : Int.log 2 |(k : ℚ)| < 53 :=
    (Int.lt_zpow_iff_log_lt hb hpos).mp (by exact_mod_cast hlt)
  refine f64Round_eq_self (k : ℚ) (Int.log 2 |(k : ℚ)|)
    (k * 2 ^ (52 - Int.log 2 |(k : ℚ)|).toNat) hq (by omega) ?_ ?_ ?_
  · exact_mod_cast Int.zpow_log_le_self hb hpos
  · exact_mod_cast Int.lt_zpow_succ_log_self hb |(k : ℚ)|
  · generalize Int.log 2 |(k : ℚ)| = e at he0 he1
    have h2 : ((2 : ℚ) ^ (52 - e).toNat) = (2 : ℚ) ^ (52 - e) := by
      rw [← zpow_natCast, Int.toNat_of_nonneg (by omega)]
    push_cast
    rw [h2, mul_assoc, ← zpow_add₀ (by norm_num : (2 : ℚ) ≠ 0)]
    simp

theorem int64OfFloat_f64Sub_self (a : ℚ) : int64OfFloat (f64Sub a a) = 0 := by
  rw [f64Sub_self, int64OfFloat_zero]

theorem int64OfFloat_f64Sub_intCast (a b : ℚ) (k : Int) (h : a - b = k)
    (hk : -9007199254740992 < k ∧ k < 9007199254740992) : int64OfFloat (f64Sub a b) = k := by
  rw [f64Sub, h, f64Round_intCast k hk]
  exact int64OfFloat_intCast k ⟨by omega, by omega⟩

theorem int64OfFloat_zero_sub_three : int64OfFloat (f64Sub 0 3) = -3 :=
  int64OfFloat_f64Sub_intCast 0 3 (-3) (by norm_num) (by decide)

theorem int64OfFloat_zero_sub_two : int64OfFloat (f64Sub 0 2) = -2 :=
  int64OfFloat_f64Sub_intCast 0 2 (-2) (by norm_num) (by decide)

theorem int64OfFloat_three_sub_two : int64OfFloat (f64Sub 3 2) = 1 :=
  int64OfFloat_f64Sub_intCast 3 2 1 (by norm_num) (by decide)

theorem int64OfFloat_one_sub_two : int64OfFloat (f64Sub 1 2) = -1 :=
  int64OfFloat_f64Sub_intCast 1 2 (-1) (by norm_num) (by decide)

theorem int64OfFloat_five_and_half_sub_zero : int64OfFloat (f64Sub 5.5 0) = 5 := by
  have h : f64Round ((5.5 : ℚ) - 0) = 5.5 - 0 :=
    f64Round_eq_self (5.5 - 0) 2 (11 * 2 ^ 49) (by norm_num) (by norm_num)
      (by norm_num [abs_of_pos]) (by norm_num [abs_of_pos]) (by norm_num)
  rw [f64Sub, h, int64OfFloat, truncQ_eq_of_nonneg _ 5 (by norm_num) (by norm_num) (by norm_num)]
  decide

theorem int64OfFloat_half_sub_zero : int64OfFloat (f64Sub 0.5 0) = 0 := by
  have h : f64Round ((0.5 : ℚ) - 0) = 0.5 - 0 :=
    f64Round_eq_self (0.5 - 0) (-1) (2 ^ 52) (by norm_num) (by norm_num)
      (by norm_num [abs_of_pos]) (by norm_num [abs_of_pos]) (by norm_num)
  rw [f64Sub, h, int64OfFloat, truncQ_eq_of_nonneg _ 0 (by norm_num) (by norm_num) (by norm_num)]
  decide

theorem int64OfFloat_zero_sub_five_and_half : int64OfFloat (f64Sub 0 5.5) = -5 := by
  have h : f64Round ((0 : ℚ) - 5.5) = 0 - 5.5 :=
    f64Round_eq_self (0 - 5.5) 2 (-11 * 2 ^ 49) (by norm_num) (by norm_num)
      (by norm_num [abs_of_pos]) (by norm_num [abs_of_pos]) (by norm_num)
  rw [f64Sub, h, int64OfFloat, truncQ_eq_of_neg _ (-5) (by norm_num) (by norm_num) (by norm_num)]
  decide

/-- The subtraction rounds: for the `float64` values nearest to 5.3 and 0.3, whose exact
difference is `5 - 3 / 2^54`, the result is 5.0 and converts to 5, where truncating the
exact difference would give 4. -/
theorem int64OfFloat_f64Sub_rounds :
    int64OfFloat (f64Sub (5967269506265907 / 2 ^ 50) (5404319552844595 / 2 ^ 54)) = 5 ∧
      truncQ ((5967269506265907 / 2 ^ 50 : ℚ) - 5404319552844595 / 2 ^ 54) = 4 := by
  have hd : (5967269506265907 / 2 ^ 50 : ℚ) - 5404319552844595 / 2 ^ 54 =
      90071992547409917 / 2 ^ 54 := by norm_num
  constructor
  · have hlog : Int.log 2 |(90071992547409917 / 2 ^ 54 : ℚ)| = 2 :=
      log2_eq _ 2 (by norm_num) (by norm_num [abs_of_pos]) (by norm_num [abs_of_pos])
    have hr : roundHalfEven ((90071992547409917 / 2 ^ 54 : ℚ) / (2 : ℚ) ^ ((2 : Int) - 52)) =
        5629499534213120 := by
      have hv : (90071992547409917 / 2 ^ 54 : ℚ) / (2 : ℚ) ^ ((2 : Int) - 52) =
          90071992547409917 / 16 := by norm_num
      have hf : ⌊(90071992547409917 / 16 : ℚ)⌋ = 5629499534213119 := by
        rw [Int.floor_eq_iff]; norm_num
      rw [hv, roundHalfEven, hf]
      norm_num
    have h5 : f64Round (90071992547409917 / 2 ^ 54) = ((5 : Int) : ℚ) := by
      have hne : (90071992547409917 / 2 ^ 54 : ℚ) ≠ 0 := by norm_num
      simp only [f64Round, if_neg hne, hlog]
      rw [max_eq_left (by norm_num), hr]
      norm_num
    rw [f64Sub, hd, h5]
    exact int64OfFloat_intCast 5 (by decide)
  · rw [hd]
    exact truncQ_eq_of_nonneg _ 4 (by norm_num) (by norm_num) (by norm_num)

/-! ## Properties -/

/-- C1. Each of the six dimension checks returns true exactly when its sequence holds an
interval with `From ≤ v ≤ To`, `v` being the value the dimension derives from the translated
instant.  In particular a check is false on an unset (nil) and on an empty sequence, on a
single interval `[a, b]` it is true exactly when `a ≤ v ≤ b`, and it is false on a single
interval whose `From` is `v + 1` (so `v = From − 1`) or whose `To` is `v − 1` (so
`v = To + 1`). -/
theorem C1_dimension_check_iff_some_interval_contains (loc : Location) (r : Restriction) :
    ((r.checkMonth loc = true ↔ ∃ i ∈ r.Months.elems, i.From ≤ (Unix loc r.translatedTime).Month ∧ (Unix loc r.translatedTime).Month ≤ i.To) ∧
      ({ r with Months := none } : Restriction).checkMonth loc = false ∧
      ({ r with Months := some [] } : Restriction).checkMonth loc = false ∧
      (∀ a b : Int, ({ r with Months := some [{ From := a, To := b }] } : Restriction).checkMonth loc
          = true ↔ a ≤ (Unix loc r.translatedTime).Month ∧ (Unix loc r.translatedTime).Month ≤ b) ∧
      (∀ b : Int, ({ r with Months := some [{ From := (Unix loc r.translatedTime).Month + 1, To := b }] }
          : Restriction).checkMonth loc = false) ∧
      (∀ a : Int, ({ r with Months := some [{ From := a, To := (Unix loc r.translatedTime).Month - 1 }] }
          : Restriction).checkMonth loc = false)) ∧
    ((r.checkWeek loc = true ↔ ∃ i ∈ r.Weeks.elems, i.From ≤ (Unix loc r.translatedTime).ISOWeek.2 ∧ (Unix loc r.translatedTime).ISOWeek.2 ≤ i.To) ∧
      ({ r with Weeks := none } : Restriction).checkWeek loc = false ∧
      ({ r with Weeks := some [] } : Restriction).checkWeek loc = false ∧
      (∀ a b : Int, ({ r with Weeks := some [{ From := a, To := b }] } : Restriction).checkWeek loc
          = true ↔ a ≤ (Unix loc r.translatedTime).ISOWeek.2 ∧ (Unix loc r.translatedTime).ISOWeek.2 ≤ b) ∧
      (∀ b : Int, ({ r with Weeks := some [{ From := (Unix loc r.translatedTime).ISOWeek.2 + 1, To := b }] }
          : Restriction).checkWeek loc = false) ∧
      (∀ a : Int, ({ r with Weeks := some [{ From := a, To := (Unix loc r.translatedTime).ISOWeek.2 - 1 }] }
          : Restriction).checkWeek loc = false)) ∧
    ((r.checkDayOfMonth loc = true ↔ ∃ i ∈ r.DaysOfMonth.elems, i.From ≤ (Unix loc r.translatedTime).Day ∧ (Unix loc r.translatedTime).Day ≤ i.To) ∧
      ({ r with DaysOfMonth := none } : Restriction).checkDayOfMonth loc = false ∧
      ({ r with DaysOfMonth := some [] } : Restriction).checkDayOfMonth loc = false ∧
      (∀ a b : Int, ({ r with DaysOfMonth := some [{ From := a, To := b }] } : Restriction).checkDayOfMonth loc
          = true ↔ a ≤ (Unix loc r.translatedTime).Day ∧ (Unix loc r.translatedTime).Day ≤ b) ∧
      (∀ b : Int, ({ r with DaysOfMonth := some [{ From := (Unix loc r.translatedTime).Day + 1, To := b }] }
          : Restriction).checkDayOfMonth loc = false) ∧
      (∀ a : Int, ({ r with DaysOfMonth := some [{ From := a, To := (Unix loc r.translatedTime).Day - 1 }] }
          : Restriction).checkDayOfMonth loc = false)) ∧
    ((r.checkDayOfWeek loc = true ↔ ∃ i ∈ r.DaysOfWeek.elems, i.From ≤ (Unix loc r.translatedTime).Weekday ∧ (Unix loc r.translatedTime).Weekday ≤ i.To) ∧
      ({ r with DaysOfWeek := none } : Restriction).checkDayOfWeek loc = false ∧
      ({ r with DaysOfWeek := some [] } : Restriction).checkDayOfWeek loc = false ∧
      (∀ a b : Int, ({ r with DaysOfWeek := some [{ From := a, To := b }] } : Restriction).checkDayOfWeek loc
          = true ↔ a ≤ (Unix loc r.translatedTime).Weekday ∧ (Unix loc r.translatedTime).Weekday ≤ b) ∧
      (∀ b : Int, ({ r with DaysOfWeek := some [{ From := (Unix loc r.translatedTime).Weekday + 1, To := b }] }
          : Restriction).checkDayOfWeek loc = false) ∧
      (∀ a : Int, ({ r with DaysOfWeek := some [{ From := a, To := (Unix loc r.translatedTime).Weekday - 1 }] }
          : Restriction).checkDayOfWeek loc = false)) ∧
    ((r.checkHour loc = true ↔ ∃ i ∈ r.Hours.elems, i.From ≤ (Unix loc r.translatedTime).Hour ∧ (Unix loc r.translatedTime).Hour ≤ i.To) ∧
      ({ r with Hours := none } : Restriction).checkHour loc = false ∧
      ({ r with Hours := some [] } : Restriction).checkHour loc = false ∧
      (∀ a b : Int, ({ r with Hours := some [{ From := a, To := b }] } : Restriction).checkHour loc
          = true ↔ a ≤ (Unix loc r.translatedTime).Hour ∧ (Unix loc r.translatedTime).Hour ≤ b) ∧
      (∀ b : Int, ({ r with Hours := some [{ From := (Unix loc r.translatedTime).Hour + 1, To := b }] }
          : Restriction).checkHour loc = false) ∧
      (∀ a : Int, ({ r with Hours := some [{ From := a, To := (Unix loc r.translatedTime).Hour - 1 }] }
          : Restriction).checkHour loc = false)) ∧
    ((r.checkMinute loc = true ↔ ∃ i ∈ r.Minutes.elems, i.From ≤ (Unix loc r.translatedTime).Minute ∧ (Unix loc r.translatedTime).Minute ≤ i.To) ∧
      ({ r with Minutes := none } : Restriction).checkMinute loc = false ∧
      ({ r with Minutes := some [] } : Restriction).checkMinute loc = false ∧
      (∀ a b : Int, ({ r with Minutes := some [{ From := a, To := b }] } : Restriction).checkMinute loc
          = true ↔ a ≤ (Unix loc r.translatedTime).Minute ∧ (Unix loc r.translatedTime).Minute ≤ b) ∧
      (∀ b : Int, ({ r with Minutes := some [{ From := (Unix loc r.translatedTime).Minute + 1, To := b }] }
          : Restriction).checkMinute loc = false) ∧
      (∀ a : Int, ({ r with Minutes := some [{ From := a, To := (Unix loc r.translatedTime).Minute - 1 }] }
          : Restriction).checkMinute loc = false)) := by
  refine ⟨?_, ?_, ?_, ?_, ?_, ?_⟩
  · refine ⟨checkMonth_iff loc r, ?_, ?_, ?_, ?_, ?_⟩
    · simp [Restriction.checkMonth]
    · simp [Restriction.checkMonth, loopMonths]
    · intro a b
      simp [checkMonth_iff, Slice.elems]
    · intro b
      rw [← Bool.not_eq_true, checkMonth_iff]
      simp [Slice.elems]
    · intro a
      rw [← Bool.not_eq_true, checkMonth_iff]
      simp [Slice.elems]
  · refine ⟨checkWeek_iff loc r, ?_, ?_, ?_, ?_, ?_⟩
    · simp [Restriction.checkWeek]
    · simp [Restriction.checkWeek, loopWeeks]
    · intro a b
      simp [checkWeek_iff, Slice.elems]
    · intro b
      rw [← Bool.not_eq_true, checkWeek_iff]
      simp [Slice.elems]
    · intro a
      rw [← Bool.not_eq_true, checkWeek_iff]
      simp [Slice.elems]
  · refine ⟨checkDayOfMonth_iff loc r, ?_, ?_, ?_, ?_, ?_⟩
    · simp [Restriction.checkDayOfMonth]
    · simp [Restriction.checkDayOfMonth, loopDays]
    · intro a b
      simp [checkDayOfMonth_iff, Slice.elems]
    · intro b
      rw [← Bool.not_eq_true, checkDayOfMonth_iff]
      simp [Slice.elems]
    · intro a
      rw [← Bool.not_eq_true, checkDayOfMonth_iff]
      simp [Slice.elems]
  · refine ⟨checkDayOfWeek_iff loc r, ?_, ?_, ?_, ?_, ?_⟩
    · simp [Restriction.checkDayOfWeek]
    · simp [Restriction.checkDayOfWeek, loopDays]
    · intro a b
      simp [checkDayOfWeek_iff, Slice.elems]
    · intro b
      rw [← Bool.not_eq_true, checkDayOfWeek_iff]
      simp [Slice.elems]
    · intro a
      rw [← Bool.not_eq_true, checkDayOfWeek_iff]
      simp [Slice.elems]
  · refine ⟨checkHour_iff loc r, ?_, ?_, ?_, ?_, ?_⟩
    · simp [Restriction.checkHour]
    · simp [Restriction.checkHour, loopHours]
    · intro a b
      simp [checkHour_iff, Slice.elems]
    · intro b
      rw [← Bool.not_eq_true, checkHour_iff]
      simp [Slice.elems]
    · intro a
      rw [← Bool.not_eq_true, checkHour_iff]
      simp [Slice.elems]
  · refine ⟨checkMinute_iff loc r, ?_, ?_, ?_, ?_, ?_⟩
    · simp [Restriction.checkMinute]
    · simp [Restriction.checkMinute, loopMinutes]
    · intro a b
      simp [checkMinute_iff, Slice.elems]
    · intro b
      rw [← Bool.not_eq_true, checkMinute_iff]
      simp [Slice.elems]
    · intro a
      rw [← Bool.not_eq_true, checkMinute_iff]
      simp [Slice.elems]

theorem checks_eq_or (loc : Location) (r : Restriction) :
    r.checks loc = (r.checkMonth loc || r.checkWeek loc || r.checkDayOfMonth loc ||
      r.checkDayOfWeek loc || r.checkHour loc || r.checkMinute loc) := by
  unfold Restriction.checks
  cases r.checkMonth loc <;> cases r.checkWeek loc <;> cases r.checkDayOfMonth loc <;>
    cases r.checkDayOfWeek loc <;> cases r.checkHour loc <;> cases r.checkMinute loc <;> rfl

/-- C2. `Check` and `CheckNoOffset` return the disjunction of the six dimension checks of
the configuration taken at the translated instant of the call (the receiver `r` with its
scratch field set to that instant); hence the result is true exactly when at least one
dimension check is true, whatever the order of evaluation. -/
theorem C2_check_is_or_of_dimension_checks (loc : Location) (r : Restriction) (requestOffset : ℚ)
    (requestTime : Int) (estimatedDurationSecs : Nat) :
    (let translated : Int :=
        add64 (add64 requestTime (mul64 (int64OfFloat (f64Sub requestOffset r.GMTOffset)) 3600))
          (int64OfUint estimatedDurationSecs)
      let r1 : Restriction := { r with translatedTime := translated }
      (r.Check loc requestOffset requestTime estimatedDurationSecs).1 =
        (r1.checkMonth loc || r1.checkWeek loc || r1.checkDayOfMonth loc ||
          r1.checkDayOfWeek loc || r1.checkHour loc || r1.checkMinute loc) ∧
      ((r.Check loc requestOffset requestTime estimatedDurationSecs).1 = true ↔
        (r1.checkMonth loc = true ∨ r1.checkWeek loc = true ∨ r1.checkDayOfMonth loc = true ∨
          r1.checkDayOfWeek loc = true ∨ r1.checkHour loc = true ∨
          r1.checkMinute loc = true))) ∧
    (let translated : Int := add64 requestTime (int64OfUint estimatedDurationSecs)
      let r1 : Restriction := { r with translatedTime := translated }
      (r.CheckNoOffset loc requestTime estimatedDurationSecs).1 =
        (r1.checkMonth loc || r1.checkWeek loc || r1.checkDayOfMonth loc ||
          r1.checkDayOfWeek loc || r1.checkHour loc || r1.checkMinute loc) ∧
      ((r.CheckNoOffset loc requestTime estimatedDurationSecs).1 = true ↔
        (r1.checkMonth loc = true ∨ r1.checkWeek loc = true ∨ r1.checkDayOfMonth loc = true ∨
          r1.checkDayOfWeek loc = true ∨ r1.checkHour loc = true ∨
          r1.checkMinute loc = true))) :=
  ⟨⟨checks_eq_or loc _, checks_iff loc _⟩, ⟨checks_eq_or loc _, checks_iff loc _⟩⟩

/-- C4. With all six sequences empty or unset, `Check` and `CheckNoOffset` return false for
every request offset, request time, duration and reference offset. -/
theorem C4_no_intervals_never_restricted (loc : Location) (r : Restriction)
    (hMonths : r.Months.elems = []) (hWeeks : r.Weeks.elems = [])
    (hDaysOfMonth : r.DaysOfMonth.elems = []) (hDaysOfWeek : r.DaysOfWeek.elems = [])
    (hHours : r.Hours.elems = []) (hMinutes : r.Minutes.elems = [])
    (requestOffset : ℚ) (requestTime : Int) (estimatedDurationSecs : Nat) :
    (r.Check loc requestOffset requestTime estimatedDurationSecs).1 = false ∧
      (r.CheckNoOffset loc requestTime estimatedDurationSecs).1 = false := by
  constructor
  · rw [← Bool.not_eq_true, Restriction.Check, checks_iff, checkMonth_iff, checkWeek_iff,
      checkDayOfMonth_iff, checkDayOfWeek_iff, checkHour_iff, checkMinute_iff]
    simp [hMonths, hWeeks, hDaysOfMonth, hDaysOfWeek, hHours, hMinutes]
  · rw [← Bool.not_eq_true, Restriction.CheckNoOffset, checks_iff, checkMonth_iff, checkWeek_iff,
      checkDayOfMonth_iff, checkDayOfWeek_iff, checkHour_iff, checkMinute_iff]
    simp [hMonths, hWeeks, hDaysOfMonth, hDaysOfWeek, hHours, hMinutes]

/-- Witness of C4: the configuration of `TestNoRestrictions` (reference offset 3, nothing
else set), and one whose sequences are empty but not nil. -/
theorem C4_no_intervals_never_restricted_witness :
    (({ GMTOffset := 3 } : Restriction).Check (Location.fixed 7200) 3 1609412400 0).1 = false ∧
      (({ Months := some [], Hours := some [] } : Restriction).CheckNoOffset
        (Location.fixed 0) 1609412400 7200).1 = false :=
  ⟨(C4_no_intervals_never_restricted (Location.fixed 7200) { GMTOffset := 3 }
      rfl rfl rfl rfl rfl rfl 3 1609412400 0).1,
    (C4_no_intervals_never_restricted (Location.fixed 0) { Months := some [], Hours := some [] }
      rfl rfl rfl rfl rfl rfl 0 1609412400 7200).2⟩

/-- C5. On the preset returned by `allRestrict`, `Check` returns true for every request
offset, request time and duration, and `CheckNoOffset` for every request time and duration:
the month of any instant lies in the preset's month interval `[1, 12]`. -/
theorem C5_allRestrict_always_restricted (loc : Location) (requestOffset : ℚ)
    (requestTime : Int) (estimatedDurationSecs : Nat) :
    (allRestrict.Check loc requestOffset requestTime estimatedDurationSecs).1 = true ∧
      (allRestrict.CheckNoOffset loc requestTime estimatedDurationSecs).1 = true := by
  constructor
  · rw [Restriction.Check, checks_iff]
    left
    rw [checkMonth_iff]
    exact ⟨{ From := 1, To := 12 }, by simp [allRestrict, Slice.elems], Time.Month_bounds _⟩
  · rw [Restriction.CheckNoOffset, checks_iff]
    left
    rw [checkMonth_iff]
    exact ⟨{ From := 1, To := 12 }, by simp [allRestrict, Slice.elems], Time.Month_bounds _⟩

theorem wrap64_add_wrap64_left (a b : Int) : wrap64 (wrap64 a + b) = wrap64 (a + b) := by
  unfold wrap64; omega

theorem wrap64_add_wrap64_right (a b : Int) : wrap64 (a + wrap64 b) = wrap64 (a + b) := by
  unfold wrap64; omega

theorem wrap64_of_inInt64 (a : Int) (h : inInt64 a) : wrap64 a = a := by
  unfold wrap64; unfold inInt64 at h; omega

/-- C6. `CheckNoOffset(t, d)` returns what `Check(R, t, d)` returns, `R` being the reference
offset of the configuration; the receiver is left in the same state too. -/
theorem C6_checkNoOffset_eq_check_at_reference_offset (loc : Location) (r : Restriction)
    (requestTime : Int) (estimatedDurationSecs : Nat) :
    r.CheckNoOffset loc requestTime estimatedDurationSecs =
      r.Check loc r.GMTOffset requestTime estimatedDurationSecs := by
  have h : add64 (add64 requestTime (mul64 (int64OfFloat (f64Sub r.GMTOffset r.GMTOffset)) 3600))
      (int64OfUint estimatedDurationSecs) = add64 requestTime (int64OfUint estimatedDurationSecs) := by
    rw [int64OfFloat_f64Sub_self]
    simp only [add64, mul64, zero_mul]
    rw [wrap64_add_wrap64_right, wrap64_add_wrap64_left, add_zero]
  simp only [Restriction.CheckNoOffset, Restriction.Check, h]

/-- The instant `Check` stores: the sum of the request time, 3600 times the truncated
offset difference and the duration, reduced to `int64`. -/
theorem Check_translatedTime (loc : Location) (r : Restriction) (requestOffset : ℚ)
    (requestTime : Int) (estimatedDurationSecs : Nat) :
    (r.Check loc requestOffset requestTime estimatedDurationSecs).2.translatedTime =
      wrap64 (requestTime + int64OfFloat (f64Sub requestOffset r.GMTOffset) * 3600 +
        estimatedDurationSecs) := by
  simp only [Restriction.Check, add64, mul64, int64OfUint]
  generalize int64OfFloat (f64Sub requestOffset r.GMTOffset) * 3600 = m
  unfold wrap64
  omega

/-- For an offset difference that is a whole number `k` of hours (below 2^53 in magnitude),
and when nothing leaves the `int64` range, the instant `Check` stores is the one the
specification's formula gives. -/
theorem Check_translatedTime_whole_hours (loc : Location) (r : Restriction)
    (requestOffset : ℚ) (k : Int) (hk : requestOffset - r.GMTOffset = k)
    (hk53 : -9007199254740992 < k ∧ k < 9007199254740992)
    (requestTime : Int) (estimatedDurationSecs : Nat)
    (hsum : inInt64 (requestTime + k * 3600 + estimatedDurationSecs)) :
    (r.Check loc requestOffset requestTime estimatedDurationSecs).2.translatedTime =
      specTranslate requestOffset r.GMTOffset requestTime estimatedDurationSecs := by
  have hround : round ((k : ℚ) * 3600) = k * 3600 := by
    have h : ((k : ℚ) * 3600) = ((k * 3600 : Int) : ℚ) := by push_cast; ring
    rw [h, round_intCast]
  rw [Check_translatedTime, specTranslate, hk, hround,
    int64OfFloat_f64Sub_intCast _ _ k hk hk53]
  exact wrap64_of_inInt64 _ hsum

/-- C3. The code does not evaluate `requestTime + round((requestOffset − referenceOffset)
* 3600) + duration`: it truncates the offset difference to whole hours before multiplying.
With request offset 5.5, reference offset 0, request time 1609412400 and duration 0 the
stored instant is 1609430400 (five hours later) where the formula gives 1609432200; and a
half-hour difference (request offset 0.5, reference offset 0) shifts the instant by 0
seconds where the formula gives 1800. -/
theorem C3_check_truncates_offset_difference :
    (({ GMTOffset := 0 } : Restriction).Check (Location.fixed 0) 5.5 1609412400 0).2.translatedTime
        = 1609430400 ∧
      specTranslate 5.5 0 1609412400 0 = 1609432200 ∧
      (({ GMTOffset := 0 } : Restriction).Check (Location.fixed 0) 0.5 1609412400 0).2.translatedTime
        = 1609412400 ∧
      specTranslate 0.5 0 1609412400 0 = 1609412400 + 1800 := by
  have h5 : int64OfFloat (f64Sub 5.5 0) = 5 := int64OfFloat_five_and_half_sub_zero
  have h0 : int64OfFloat (f64Sub 0.5 0) = 0 := int64OfFloat_half_sub_zero
  refine ⟨?_, ?_, ?_, ?_⟩
  · rw [Check_translatedTime, h5]
    decide
  · norm_num [specTranslate, round_eq]
  · rw [Check_translatedTime, h0]
    decide
  · norm_num [specTranslate, round_eq]

/-- C7. Offset reconciliation fails on the code for a fractional offset difference.  With
only `Minutes = [30, 30]`, request offset 0, reference offset 5.5, request time 1609412400
(11:00:00 UTC) and duration 0, calendar fields taken in UTC: `Check` evaluates 06:00:00
and returns false, while `Check(0, 1609412400 + (0 − 5.5) * 3600, 0)` on the same intervals
with reference offset 0 evaluates 05:30:00 and returns true. -/
theorem C7_offset_reconciliation_fails_at_half_hour :
    (({ GMTOffset := 5.5, Minutes := some [{ From := 30, To := 30 }] } : Restriction).Check
        (Location.fixed 0) 0 1609412400 0).1 = false ∧
      ((1609412400 + (0 - 5.5) * 3600 : ℚ) = ((1609392600 : Int) : ℚ)) ∧
      (({ GMTOffset := 0, Minutes := some [{ From := 30, To := 30 }] } : Restriction).Check
        (Location.fixed 0) 0 1609392600 0).1 = true := by
  have h : int64OfFloat (f64Sub 0 5.5) = -5 := int64OfFloat_zero_sub_five_and_half
  refine ⟨?_, by norm_num, ?_⟩
  · simp only [Restriction.Check, h]
    decide
  · simp only [Restriction.Check, int64OfFloat_f64Sub_self]
    decide

/-- Offset reconciliation on the code, for an offset difference that is a whole number `k`
of hours (below 2^53 in magnitude): `Check(offsetA, t, d)` with reference offset `R` equals
`Check(0, t + k * 3600, d)` with reference offset 0 on the same intervals, as far as the
boolean goes. -/
theorem Check_offset_reconciliation_whole_hours (loc : Location) (r : Restriction)
    (offsetA : ℚ) (k : Int) (hk : offsetA - r.GMTOffset = k)
    (hk53 : -9007199254740992 < k ∧ k < 9007199254740992)
    (requestTime : Int) (estimatedDurationSecs : Nat) :
    (r.Check loc offsetA requestTime estimatedDurationSecs).1 =
      (({ r with GMTOffset := 0 } : Restriction).Check loc 0 (requestTime + k * 3600)
        estimatedDurationSecs).1 := by
  have hl := Check_translatedTime loc r offsetA requestTime estimatedDurationSecs
  have hr := Check_translatedTime loc ({ r with GMTOffset := 0 } : Restriction) 0
    (requestTime + k * 3600) estimatedDurationSecs
  have e : (r.Check loc offsetA requestTime estimatedDurationSecs).2.translatedTime =
      (({ r with GMTOffset := 0 } : Restriction).Check loc 0 (requestTime + k * 3600)
        estimatedDurationSecs).2.translatedTime := by
    rw [hl, hr, int64OfFloat_f64Sub_intCast _ _ k hk hk53]
    simp only [int64OfFloat_f64Sub_self, zero_mul, add_zero]
  simp only [Restriction.Check] at e ⊢
  rw [e]
  rfl

/-- C8. Duration folding: `Check(o, t, d)` equals `Check(o, t + d, 0)` and
`CheckNoOffset(t, d)` equals `CheckNoOffset(t + d, 0)`, result and receiver alike, both for
the exact sum `t + d` (the caller's sum when nothing overflows) and for the `int64` sum a Go
caller computes.  Consequently, when the configuration is restricted at the instant
`t + 3600` and not at `t` (both within `int64`), `CheckNoOffset(t, 3600)` is true and
`CheckNoOffset(t, 0)` is false; and when `Check(o, t + 3600, 0)` is true and `Check(o, t, 0)`
is false, `Check(o, t, 3600)` is true and `Check(o, t, 0)` is false. -/
theorem C8_duration_folding (loc : Location) (r : Restriction) (requestOffset : ℚ)
    (requestTime : Int) (estimatedDurationSecs : Nat) :
    (r.Check loc requestOffset requestTime estimatedDurationSecs =
        r.Check loc requestOffset (requestTime + estimatedDurationSecs) 0 ∧
      r.CheckNoOffset loc requestTime estimatedDurationSecs =
        r.CheckNoOffset loc (requestTime + estimatedDurationSecs) 0) ∧
    (r.Check loc requestOffset requestTime estimatedDurationSecs =
        r.Check loc requestOffset (add64 requestTime (int64OfUint estimatedDurationSecs)) 0 ∧
      r.CheckNoOffset loc requestTime estimatedDurationSecs =
        r.CheckNoOffset loc (add64 requestTime (int64OfUint estimatedDurationSecs)) 0) ∧
    (inInt64 requestTime → inInt64 (requestTime + 3600) →
      r.restrictedAt loc (requestTime + 3600) = true → r.restrictedAt loc requestTime = false →
      (r.CheckNoOffset loc requestTime 3600).1 = true ∧
        (r.CheckNoOffset loc requestTime 0).1 = false) ∧
    ((r.Check loc requestOffset (requestTime + 3600) 0).1 = true →
      (r.Check loc requestOffset requestTime 0).1 = false →
      (r.Check loc requestOffset requestTime 3600).1 = true ∧
        (r.Check loc requestOffset requestTime 0).1 = false) := by
  have foldCheck : ∀ (t : Int) (d : Nat),
      add64 (add64 t (mul64 (int64OfFloat (f64Sub requestOffset r.GMTOffset)) 3600)) (int64OfUint d) =
        add64 (add64 (t + d) (mul64 (int64OfFloat (f64Sub requestOffset r.GMTOffset)) 3600))
          (int64OfUint 0) := by
    intro t d
    simp only [add64, mul64, int64OfUint]
    generalize int64OfFloat (f64Sub requestOffset r.GMTOffset) * 3600 = m
    unfold wrap64
    omega
  have foldNoOffset : ∀ (t : Int) (d : Nat),
      add64 t (int64OfUint d) = add64 (t + d) (int64OfUint 0) := by
    intro t d
    simp only [add64, int64OfUint]
    unfold wrap64
    omega
  have foldCheckGo : ∀ (t : Int) (d : Nat),
      add64 (add64 t (mul64 (int64OfFloat (f64Sub requestOffset r.GMTOffset)) 3600)) (int64OfUint d) =
        add64 (add64 (add64 t (int64OfUint d))
          (mul64 (int64OfFloat (f64Sub requestOffset r.GMTOffset)) 3600)) (int64OfUint 0) := by
    intro t d
    simp only [add64, mul64, int64OfUint]
    generalize int64OfFloat (f64Sub requestOffset r.GMTOffset) * 3600 = m
    unfold wrap64
    omega
  have foldNoOffsetGo : ∀ (t : Int) (d : Nat),
      add64 t (int64OfUint d) = add64 (add64 t (int64OfUint d)) (int64OfUint 0) := by
    intro t d
    simp only [add64, int64OfUint]
    unfold wrap64
    omega
  have hC : ∀ (t : Int) (d : Nat), r.Check loc requestOffset t d =
      r.Check loc requestOffset (t + d) 0 := by
    intro t d
    simp only [Restriction.Check, foldCheck t d]
  have hN : ∀ (t : Int) (d : Nat), r.CheckNoOffset loc t d = r.CheckNoOffset loc (t + d) 0 := by
    intro t d
    simp only [Restriction.CheckNoOffset, foldNoOffset t d]
  refine ⟨⟨hC _ _, hN _ _⟩, ⟨?_, ?_⟩, ?_, ?_⟩
  · unfold Restriction.Check
    rw [foldCheckGo requestTime estimatedDurationSecs]
  · unfold Restriction.CheckNoOffset
    rw [← foldNoOffsetGo requestTime estimatedDurationSecs]
  · intro ht ht1 hyes hno
    have e1 : add64 requestTime (int64OfUint 3600) = requestTime + 3600 := by
      simp only [add64, int64OfUint]
      unfold inInt64 at ht ht1
      unfold wrap64
      omega
    have e0 : add64 requestTime (int64OfUint 0) = requestTime := by
      simp only [add64, int64OfUint]
      unfold inInt64 at ht
      unfold wrap64
      omega
    constructor
    · simp only [Restriction.CheckNoOffset, e1]
      exact hyes
    · simp only [Restriction.CheckNoOffset, e0]
      exact hno
  · intro hyes hno
    refine ⟨?_, hno⟩
    rw [hC requestTime 3600]
    exact hyes

/-- Witness of C8: only `Hours = [12, 12]`, calendar fields in UTC, request time 1609412400
(11:00:00 UTC): restricted one hour later, not at the request time. -/
theorem C8_duration_folding_witness :
    ((({ Hours := some [{ From := 12, To := 12 }] } : Restriction).CheckNoOffset
        (Location.fixed 0) 1609412400 3600).1 = true ∧
      (({ Hours := some [{ From := 12, To := 12 }] } : Restriction).CheckNoOffset
        (Location.fixed 0) 1609412400 0).1 = false) ∧
    ((({ Hours := some [{ From := 12, To := 12 }] } : Restriction).Check
        (Location.fixed 0) 0 1609412400 3600).1 = true ∧
      (({ Hours := some [{ From := 12, To := 12 }] } : Restriction).Check
        (Location.fixed 0) 0 1609412400 0).1 = false) := by
  have h := C8_duration_folding (Location.fixed 0)
    ({ Hours := some [{ From := 12, To := 12 }] } : Restriction) 0 1609412400 0
  refine ⟨h.2.2.1 (by decide) (by decide) (by decide) (by decide), h.2.2.2 ?_ ?_⟩
  · simp only [Restriction.Check, int64OfFloat_f64Sub_self]
    decide
  · simp only [Restriction.Check, int64OfFloat_f64Sub_self]
    decide

/-- C9. An inverted interval (`From > To`) never matches: when every interval of a dimension
is inverted, that dimension's check is false whatever the translated instant, and when this
holds in all six dimensions `Check` and `CheckNoOffset` return false for every input.  The
functions are total and return a plain boolean: nothing is signalled. -/
theorem C9_inverted_intervals_never_match (loc : Location) (r : Restriction)
    (hMonths : ∀ i ∈ r.Months.elems, i.From > i.To)
    (hWeeks : ∀ i ∈ r.Weeks.elems, i.From > i.To)
    (hDaysOfMonth : ∀ i ∈ r.DaysOfMonth.elems, i.From > i.To)
    (hDaysOfWeek : ∀ i ∈ r.DaysOfWeek.elems, i.From > i.To)
    (hHours : ∀ i ∈ r.Hours.elems, i.From > i.To)
    (hMinutes : ∀ i ∈ r.Minutes.elems, i.From > i.To)
    (requestOffset : ℚ) (requestTime : Int) (estimatedDurationSecs : Nat) :
    (∀ t : Int,
      ({ r with translatedTime := t } : Restriction).checkMonth loc = false ∧
      ({ r with translatedTime := t } : Restriction).checkWeek loc = false ∧
      ({ r with translatedTime := t } : Restriction).checkDayOfMonth loc = false ∧
      ({ r with translatedTime := t } : Restriction).checkDayOfWeek loc = false ∧
      ({ r with translatedTime := t } : Restriction).checkHour loc = false ∧
      ({ r with translatedTime := t } : Restriction).checkMinute loc = false) ∧
    (r.Check loc requestOffset requestTime estimatedDurationSecs).1 = false ∧
    (r.CheckNoOffset loc requestTime estimatedDurationSecs).1 = false := by
  have dims : ∀ t : Int,
      ({ r with translatedTime := t } : Restriction).checkMonth loc = false ∧
      ({ r with translatedTime := t } : Restriction).checkWeek loc = false ∧
      ({ r with translatedTime := t } : Restriction).checkDayOfMonth loc = false ∧
      ({ r with translatedTime := t } : Restriction).checkDayOfWeek loc = false ∧
      ({ r with translatedTime := t } : Restriction).checkHour loc = false ∧
      ({ r with translatedTime := t } : Restriction).checkMinute loc = false := by
    intro t
    refine ⟨?_, ?_, ?_, ?_, ?_, ?_⟩
    · rw [← Bool.not_eq_true, checkMonth_iff]
      rintro ⟨i, hi, h1, h2⟩
      exact absurd (le_trans h1 h2) (not_le.mpr (hMonths i hi))
    · rw [← Bool.not_eq_true, checkWeek_iff]
      rintro ⟨i, hi, h1, h2⟩
      exact absurd (le_trans h1 h2) (not_le.mpr (hWeeks i hi))
    · rw [← Bool.not_eq_true, checkDayOfMonth_iff]
      rintro ⟨i, hi, h1, h2⟩
      exact absurd (le_trans h1 h2) (not_le.mpr (hDaysOfMonth i hi))
    · rw [← Bool.not_eq_true, checkDayOfWeek_iff]
      rintro ⟨i, hi, h1, h2⟩
      exact absurd (le_trans h1 h2) (not_le.mpr (hDaysOfWeek i hi))
    · rw [← Bool.not_eq_true, checkHour_iff]
      rintro ⟨i, hi, h1, h2⟩
      exact absurd (le_trans h1 h2) (not_le.mpr (hHours i hi))
    · rw [← Bool.not_eq_true, checkMinute_iff]
      rintro ⟨i, hi, h1, h2⟩
      exact absurd (le_trans h1 h2) (not_le.mpr (hMinutes i hi))
  refine ⟨dims, ?_, ?_⟩
  · obtain ⟨a, b, c, d, e, f⟩ := dims (add64 (add64 requestTime
      (mul64 (int64OfFloat (f64Sub requestOffset r.GMTOffset)) 3600)) (int64OfUint estimatedDurationSecs))
    simp only [Restriction.Check, checks_eq_or, a, b, c, d, e, f, Bool.or_self]
  · obtain ⟨a, b, c, d, e, f⟩ := dims (add64 requestTime (int64OfUint estimatedDurationSecs))
    simp only [Restriction.CheckNoOffset, checks_eq_or, a, b, c, d, e, f, Bool.or_self]

/-- Witness of C9: every dimension holds one inverted interval. -/
theorem C9_inverted_intervals_never_match_witness :
    (({ Months := some [{ From := 12, To := 1 }], Weeks := some [{ From := 53, To := 1 }],
        DaysOfMonth := some [{ From := 31, To := 1 }], DaysOfWeek := some [{ From := 6, To := 0 }],
        Hours := some [{ From := 23, To := 0 }], Minutes := some [{ From := 59, To := 0 }],
        GMTOffset := 3 } : Restriction).Check (Location.fixed 7200) 0 1609412400 0).1 = false :=
  (C9_inverted_intervals_never_match (Location.fixed 7200)
    { Months := some [{ From := 12, To := 1 }], Weeks := some [{ From := 53, To := 1 }],
      DaysOfMonth := some [{ From := 31, To := 1 }], DaysOfWeek := some [{ From := 6, To := 0 }],
      Hours := some [{ From := 23, To := 0 }], Minutes := some [{ From := 59, To := 0 }],
      GMTOffset := 3 }
    (by simp [Slice.elems]) (by simp [Slice.elems]) (by simp [Slice.elems])
    (by simp [Slice.elems]) (by simp [Slice.elems]) (by simp [Slice.elems])
    0 1609412400 0).2.1

/-- C10. Dimension independence: when the month of the translated instant lies in none of
the configuration's month intervals, `Check` returns what it returns on the configuration
with `Months` emptied (set to nil, or to an empty sequence), whatever the other five
dimensions hold. -/
theorem C10_month_dimension_independence (loc : Location) (r : Restriction) (requestOffset : ℚ)
    (requestTime : Int) (estimatedDurationSecs : Nat)
    (hout : ∀ i ∈ r.Months.elems,
      ¬ (i.From ≤ (Unix loc (r.Check loc requestOffset requestTime
            estimatedDurationSecs).2.translatedTime).Month ∧
          (Unix loc (r.Check loc requestOffset requestTime
            estimatedDurationSecs).2.translatedTime).Month ≤ i.To)) :
    (r.Check loc requestOffset requestTime estimatedDurationSecs).1 =
        (({ r with Months := none } : Restriction).Check loc requestOffset requestTime
          estimatedDurationSecs).1 ∧
      (r.Check loc requestOffset requestTime estimatedDurationSecs).1 =
        (({ r with Months := some [] } : Restriction).Check loc requestOffset requestTime
          estimatedDurationSecs).1 := by
  have h1 : (r.Check loc requestOffset requestTime estimatedDurationSecs).2.checkMonth loc
      = false := by
    rw [← Bool.not_eq_true, checkMonth_iff]
    rintro ⟨i, hi, h⟩
    exact hout i hi h
  simp only [Restriction.Check] at h1 ⊢
  constructor
  · rw [checks_eq_or, checks_eq_or, h1]
    rfl
  · rw [checks_eq_or, checks_eq_or, h1]
    rfl

/-- Witness of C10: `Months = [10, 11]` and `Hours = [6, 13]`, reference offset 3, local
zone UTC+2, request time 1609412400 with request offset 0: the translated instant
1609401600 is 2020-12-31 10:00, in December. -/
theorem C10_month_dimension_independence_witness :
    (({ Months := some [{ From := 10, To := 11 }], Hours := some [{ From := 6, To := 13 }],
        GMTOffset := 3 } : Restriction).Check (Location.fixed 7200) 0 1609412400 0).1 =
      (({ Months := none, Hours := some [{ From := 6, To := 13 }],
          GMTOffset := 3 } : Restriction).Check (Location.fixed 7200) 0 1609412400 0).1 := by
  have h3 : int64OfFloat (f64Sub 0 3) = -3 := int64OfFloat_zero_sub_three
  refine (C10_month_dimension_independence (Location.fixed 7200)
    { Months := some [{ From := 10, To := 11 }], Hours := some [{ From := 6, To := 13 }],
      GMTOffset := 3 } 0 1609412400 0 ?_).1
  rw [Check_translatedTime, h3]
  simp only [Slice.elems]
  decide

/-! ## Calendar scenarios

The repository's tests are written for a local zone of UTC+2 (their comments give the
request times at GMT+0200); the scenarios below take `Location.fixed 7200`. -/

/-- C12. Month scenario: for request time 1609412400 (2020-12-31 13:00 at UTC+2), request
offset 0 and duration 0, a configuration with only `Months = [12, 12]` gives `Check` = true
with reference offset 3 and with the test's reference offset 2, and a configuration with
only `Months = [10, 11]` and reference offset 3 gives `Check` = false. -/
theorem C12_month_scenario :
    (({ Months := some [{ From := 12, To := 12 }], GMTOffset := 3 } : Restriction).Check
      (Location.fixed 7200) 0 1609412400 0).1 = true ∧
    (({ Months := some [{ From := 12, To := 12 }], GMTOffset := 2 } : Restriction).Check
      (Location.fixed 7200) 0 1609412400 0).1 = true ∧
    (({ Months := some [{ From := 10, To := 11 }], GMTOffset := 3 } : Restriction).Check
      (Location.fixed 7200) 0 1609412400 0).1 = false := by
  refine ⟨?_, ?_, ?_⟩
  · simp only [Restriction.Check, int64OfFloat_zero_sub_three]
    decide
  · simp only [Restriction.Check, int64OfFloat_zero_sub_two]
    decide
  · simp only [Restriction.Check, int64OfFloat_zero_sub_three]
    decide

/-- C13. Day-of-month scenario: for request time 1609412400, request offset 0, reference
offset 3 and duration 0, a configuration with only `DaysOfMonth = [31, 31], [1, 1]` gives
`Check` = true (a hit in any interval of the sequence suffices, here the first), and a
configuration with only `DaysOfMonth = [1, 1]` gives `Check` = false. -/
theorem C13_day_of_month_scenario :
    (({ DaysOfMonth := some [{ From := 31, To := 31 }, { From := 1, To := 1 }],
        GMTOffset := 3 } : Restriction).Check (Location.fixed 7200) 0 1609412400 0).1 = true ∧
    (({ DaysOfMonth := some [{ From := 1, To := 1 }, { From := 31, To := 31 }],
        GMTOffset := 3 } : Restriction).Check (Location.fixed 7200) 0 1609412400 0).1 = true ∧
    (({ DaysOfMonth := some [{ From := 1, To := 1 }],
        GMTOffset := 3 } : Restriction).Check (Location.fixed 7200) 0 1609412400 0).1 = false := by
  refine ⟨?_, ?_, ?_⟩
  · simp only [Restriction.Check, int64OfFloat_zero_sub_three]
    decide
  · simp only [Restriction.Check, int64OfFloat_zero_sub_three]
    decide
  · simp only [Restriction.Check, int64OfFloat_zero_sub_three]
    decide

/-- C14. Day-of-week rollover: for request time 1609189201 (Monday 2020-12-28 23:00:01 at
UTC+2), duration 0 and only `DaysOfWeek = [1, 1]` with reference offset 2, `Check` with
request offset 2 returns true, and with request offset 3 returns false: the translated
instant 1609192801 is one hour later, 00:00:01 on Tuesday (weekday 2). -/
theorem C14_day_of_week_rollover_scenario :
    (({ DaysOfWeek := some [{ From := 1, To := 1 }], GMTOffset := 2 } : Restriction).Check
      (Location.fixed 7200) 2 1609189201 0).1 = true ∧
    (({ DaysOfWeek := some [{ From := 1, To := 1 }], GMTOffset := 2 } : Restriction).Check
      (Location.fixed 7200) 3 1609189201 0).1 = false ∧
    (({ DaysOfWeek := some [{ From := 1, To := 1 }], GMTOffset := 2 } : Restriction).Check
      (Location.fixed 7200) 3 1609189201 0).2.translatedTime = 1609189201 + 3600 ∧
    (Unix (Location.fixed 7200) (1609189201 + 3600)).Weekday = 2 ∧
    (Unix (Location.fixed 7200) (1609189201 + 3600)).Hour = 0 := by
  refine ⟨?_, ?_, ?_, by decide, by decide⟩
  · simp only [Restriction.Check, int64OfFloat_f64Sub_self]
    decide
  · simp only [Restriction.Check, int64OfFloat_three_sub_two]
    decide
  · simp only [Restriction.Check, int64OfFloat_three_sub_two]
    decide

/-- C15. Month and year rollover: for request time 1609448401 (Thursday 2020-12-31 23:00:01
at GMT+0200), duration 0 and only `Months = [12, 12]` with reference offset 2, `Check` with
request offset 3 returns false: the translated instant 1609452001 is one hour later and its
month is 1 (January). -/
theorem C15_month_rollover_scenario :
    (({ Months := some [{ From := 12, To := 12 }], GMTOffset := 2 } : Restriction).Check
      (Location.fixed 7200) 3 1609448401 0).1 = false ∧
    (({ Months := some [{ From := 12, To := 12 }], GMTOffset := 2 } : Restriction).Check
      (Location.fixed 7200) 3 1609448401 0).2.translatedTime = 1609448401 + 3600 ∧
    absDate (Unix (Location.fixed 7200) (1609448401 + 3600)).abs = (2021, 1, 1, 0) := by
  refine ⟨?_, ?_, by decide⟩
  · simp only [Restriction.Check, int64OfFloat_three_sub_two]
    decide
  · simp only [Restriction.Check, int64OfFloat_three_sub_two]
    decide

/-- C16. Hour scenario: with only `Hours = [23, 23]` and reference offset 2, request time
1609189201 (Monday 2020-12-28 23:00:01 at GMT+0200) and duration 0, `Check` returns true
for request offset 2 and false for request offsets 3 and 1, where the hour is 0 and 22; and
with only `Hours = [23, 23]`, `CheckNoOffset(1609448401, 0)` returns true. -/
theorem C16_hour_scenario :
    (({ Hours := some [{ From := 23, To := 23 }], GMTOffset := 2 } : Restriction).Check
      (Location.fixed 7200) 2 1609189201 0).1 = true ∧
    (({ Hours := some [{ From := 23, To := 23 }], GMTOffset := 2 } : Restriction).Check
      (Location.fixed 7200) 3 1609189201 0).1 = false ∧
    (({ Hours := some [{ From := 23, To := 23 }], GMTOffset := 2 } : Restriction).Check
      (Location.fixed 7200) 1 1609189201 0).1 = false ∧
    (Unix (Location.fixed 7200) (({ Hours := some [{ From := 23, To := 23 }], GMTOffset := 2 }
      : Restriction).Check (Location.fixed 7200) 3 1609189201 0).2.translatedTime).Hour = 0 ∧
    (Unix (Location.fixed 7200) (({ Hours := some [{ From := 23, To := 23 }], GMTOffset := 2 }
      : Restriction).Check (Location.fixed 7200) 1 1609189201 0).2.translatedTime).Hour = 22 ∧
    (({ Hours := some [{ From := 23, To := 23 }] } : Restriction).CheckNoOffset
      (Location.fixed 7200) 1609448401 0).1 = true := by
  refine ⟨?_, ?_, ?_, ?_, ?_, by decide⟩
  · simp only [Restriction.Check, int64OfFloat_f64Sub_self]
    decide
  · simp only [Restriction.Check, int64OfFloat_three_sub_two]
    decide
  · simp only [Restriction.Check, int64OfFloat_one_sub_two]
    decide
  · simp only [Restriction.Check, int64OfFloat_three_sub_two]
    decide
  · simp only [Restriction.Check, int64OfFloat_one_sub_two]
    decide

/-! ## The preset, dimension by dimension -/

theorem daysBefore_facts (m : Int) (h0 : 0 ≤ m) (h1 : m ≤ 11) :
    daysBefore m ≤ 31 * m ∧ 31 * m ≤ daysBefore (m + 1) ∧
      daysBefore (m + 1) - daysBefore m ≤ 31 := by
  interval_cases m <;> decide

theorem absDate_day_bounds (abs : Int) :
    1 ≤ (absDate abs).2.2.1 ∧ (absDate abs).2.2.1 ≤ 31 := by
  obtain ⟨h0, h1, h2⟩ := absYearDay_bounds abs
  have ka := daysBefore_estimate (absYearDay abs).2
  have kb := daysBefore_estimate ((absYearDay abs).2 - 1)
  have fa := daysBefore_facts ((absYearDay abs).2 / 31)
  have fb := daysBefore_facts (((absYearDay abs).2 - 1) / 31)
  dsimp only [absDate]
  generalize (absYearDay abs).1 = year at *
  generalize (absYearDay abs).2 = yday at *
  split_ifs with c1 c2 c3 c3
  · exact ⟨by norm_num, by norm_num⟩
  · simp only [Bool.and_eq_true, decide_eq_true_eq] at c2
    dsimp only
    have f := fb (by omega) (by omega)
    omega
  · simp only [Bool.and_eq_true, decide_eq_true_eq] at c2
    dsimp only
    have f := fb (by omega) (by omega)
    omega
  · have h3 : yday ≤ 364 := by
      by_contra hcon
      have h365 : yday = 365 := by omega
      have hleap := h2 h365
      simp [hleap, h365] at c2
    dsimp only
    have f := fa (by omega) (by omega)
    omega
  · have h3 : yday ≤ 364 := by
      by_contra hcon
      have h365 : yday = 365 := by omega
      have hleap := h2 h365
      simp [hleap, h365] at c2
    dsimp only
    have f := fa (by omega) (by omega)
    omega

theorem absClock_bounds (abs : Int) :
    (0 ≤ (absClock abs).1 ∧ (absClock abs).1 ≤ 23) ∧
      (0 ≤ (absClock abs).2.1 ∧ (absClock abs).2.1 ≤ 59) := by
  simp only [absClock, secondsPerDay]
  omega

/-- C17. The preset does not restrict every dimension fully.  On `allRestrict` the month,
day-of-month, hour and minute checks are true at every translated instant, but at
1609675200 (Sunday 2021-01-03, ISO week 53 of 2020) `checkWeek` is false, the week being 53
and the preset's interval `[1, 52]`, and `checkDayOfWeek` is false, the weekday index being
0 and the preset's interval `[1, 7]`; `Check` itself still returns true there. -/
theorem C17_allRestrict_misses_week_53_and_sunday :
    (∀ (loc : Location) (t : Int),
      ({ allRestrict with translatedTime := t } : Restriction).checkMonth loc = true ∧
      ({ allRestrict with translatedTime := t } : Restriction).checkDayOfMonth loc = true ∧
      ({ allRestrict with translatedTime := t } : Restriction).checkHour loc = true ∧
      ({ allRestrict with translatedTime := t } : Restriction).checkMinute loc = true) ∧
    (allRestrict.CheckNoOffset (Location.fixed 7200) 1609675200 0).2.translatedTime
      = 1609675200 ∧
    (Unix (Location.fixed 7200) 1609675200).ISOWeek = (2020, 53) ∧
    (Unix (Location.fixed 7200) 1609675200).Weekday = 0 ∧
    (allRestrict.CheckNoOffset (Location.fixed 7200) 1609675200 0).2.checkWeek
      (Location.fixed 7200) = false ∧
    (allRestrict.CheckNoOffset (Location.fixed 7200) 1609675200 0).2.checkDayOfWeek
      (Location.fixed 7200) = false ∧
    (allRestrict.CheckNoOffset (Location.fixed 7200) 1609675200 0).1 = true := by
  refine ⟨?_, by decide, by decide, by decide, by decide, by decide, by decide⟩
  intro loc t
  refine ⟨?_, ?_, ?_, ?_⟩
  · rw [checkMonth_iff]
    exact ⟨{ From := 1, To := 12 }, by simp [allRestrict, Slice.elems], Time.Month_bounds _⟩
  · rw [checkDayOfMonth_iff]
    exact ⟨{ From := 1, To := 31 }, by simp [allRestrict, Slice.elems], absDate_day_bounds _⟩
  · rw [checkHour_iff]
    exact ⟨{ From := 0, To := 23 }, by simp [allRestrict, Slice.elems], (absClock_bounds _).1⟩
  · rw [checkMinute_iff]
    exact ⟨{ From := 0, To := 59 }, by simp [allRestrict, Slice.elems], (absClock_bounds _).2⟩

/-- C18. `Check` and `CheckNoOffset` change only the scratch field: in the receiver after
either call the six interval sequences and `GMTOffset` are what they were before, and
`translatedTime` holds the translated instant of the call, computed as the code does (the
`float64` difference of the offsets, rounded, converted to `int64`, times 3600, added to the
request time and the duration in `int64`). -/
theorem C18_check_changes_only_translatedTime (loc : Location) (r : Restriction)
    (requestOffset : ℚ) (requestTime : Int) (estimatedDurationSecs : Nat) :
    ((r.Check loc requestOffset requestTime estimatedDurationSecs).2.Months = r.Months ∧
      (r.Check loc requestOffset requestTime estimatedDurationSecs).2.Weeks = r.Weeks ∧
      (r.Check loc requestOffset requestTime estimatedDurationSecs).2.DaysOfMonth
        = r.DaysOfMonth ∧
      (r.Check loc requestOffset requestTime estimatedDurationSecs).2.DaysOfWeek
        = r.DaysOfWeek ∧
      (r.Check loc requestOffset requestTime estimatedDurationSecs).2.Hours = r.Hours ∧
      (r.Check loc requestOffset requestTime estimatedDurationSecs).2.Minutes = r.Minutes ∧
      (r.Check loc requestOffset requestTime estimatedDurationSecs).2.GMTOffset = r.GMTOffset ∧
      (r.Check loc requestOffset requestTime estimatedDurationSecs).2.translatedTime =
        add64 (add64 requestTime (mul64 (int64OfFloat (f64Sub requestOffset r.GMTOffset)) 3600))
          (int64OfUint estimatedDurationSecs)) ∧
    ((r.CheckNoOffset loc requestTime estimatedDurationSecs).2.Months = r.Months ∧
      (r.CheckNoOffset loc requestTime estimatedDurationSecs).2.Weeks = r.Weeks ∧
      (r.CheckNoOffset loc requestTime estimatedDurationSecs).2.DaysOfMonth = r.DaysOfMonth ∧
      (r.CheckNoOffset loc requestTime estimatedDurationSecs).2.DaysOfWeek = r.DaysOfWeek ∧
      (r.CheckNoOffset loc requestTime estimatedDurationSecs).2.Hours = r.Hours ∧
      (r.CheckNoOffset loc requestTime estimatedDurationSecs).2.Minutes = r.Minutes ∧
      (r.CheckNoOffset loc requestTime estimatedDurationSecs).2.GMTOffset = r.GMTOffset ∧
      (r.CheckNoOffset loc requestTime estimatedDurationSecs).2.translatedTime =
        add64 requestTime (int64OfUint estimatedDurationSecs)) :=
  ⟨⟨rfl, rfl, rfl, rfl, rfl, rfl, rfl, rfl⟩, ⟨rfl, rfl, rfl, rfl, rfl, rfl, rfl, rfl⟩⟩

/-! ## Monotonicity and weekly periodicity -/

theorem checks_mono (loc : Location) (r r' : Restriction)
    (hT : r.translatedTime = r'.translatedTime)
    (hMonths : ∀ i ∈ r.Months.elems, i ∈ r'.Months.elems)
    (hWeeks : ∀ i ∈ r.Weeks.elems, i ∈ r'.Weeks.elems)
    (hDaysOfMonth : ∀ i ∈ r.DaysOfMonth.elems, i ∈ r'.DaysOfMonth.elems)
    (hDaysOfWeek : ∀ i ∈ r.DaysOfWeek.elems, i ∈ r'.DaysOfWeek.elems)
    (hHours : ∀ i ∈ r.Hours.elems, i ∈ r'.Hours.elems)
    (hMinutes : ∀ i ∈ r.Minutes.elems, i ∈ r'.Minutes.elems)
    (h : r.checks loc = true) : r'.checks loc = true := by
  rw [checks_iff] at h ⊢
  rw [checkMonth_iff, checkWeek_iff, checkDayOfMonth_iff, checkDayOfWeek_iff, checkHour_iff,
    checkMinute_iff] at h ⊢
  rw [← hT]
  rcases h with ⟨i, hi, hb⟩ | ⟨i, hi, hb⟩ | ⟨i, hi, hb⟩ | ⟨i, hi, hb⟩ | ⟨i, hi, hb⟩ | ⟨i, hi, hb⟩
  · exact Or.inl ⟨i, hMonths i hi, hb⟩
  · exact Or.inr (Or.inl ⟨i, hWeeks i hi, hb⟩)
  · exact Or.inr (Or.inr (Or.inl ⟨i, hDaysOfMonth i hi, hb⟩))
  · exact Or.inr (Or.inr (Or.inr (Or.inl ⟨i, hDaysOfWeek i hi, hb⟩)))
  · exact Or.inr (Or.inr (Or.inr (Or.inr (Or.inl ⟨i, hHours i hi, hb⟩))))
  · exact Or.inr (Or.inr (Or.inr (Or.inr (Or.inr ⟨i, hMinutes i hi, hb⟩))))

/-- C19. Restriction is monotone in the configuration: when `c` and `c'` have the same
reference offset and, in each of the six dimensions, every interval of `c` occurs in `c'`,
then for every input `Check` true on `c` gives `Check` true on `c'`, and likewise for
`CheckNoOffset`. -/
theorem C19_check_monotone_in_intervals (loc : Location) (c c' : Restriction)
    (hOffset : c.GMTOffset = c'.GMTOffset)
    (hMonths : ∀ i ∈ c.Months.elems, i ∈ c'.Months.elems)
    (hWeeks : ∀ i ∈ c.Weeks.elems, i ∈ c'.Weeks.elems)
    (hDaysOfMonth : ∀ i ∈ c.DaysOfMonth.elems, i ∈ c'.DaysOfMonth.elems)
    (hDaysOfWeek : ∀ i ∈ c.DaysOfWeek.elems, i ∈ c'.DaysOfWeek.elems)
    (hHours : ∀ i ∈ c.Hours.elems, i ∈ c'.Hours.elems)
    (hMinutes : ∀ i ∈ c.Minutes.elems, i ∈ c'.Minutes.elems)
    (requestOffset : ℚ) (requestTime : Int) (estimatedDurationSecs : Nat) :
    ((c.Check loc requestOffset requestTime estimatedDurationSecs).1 = true →
      (c'.Check loc requestOffset requestTime estimatedDurationSecs).1 = true) ∧
    ((c.CheckNoOffset loc requestTime estimatedDurationSecs).1 = true →
      (c'.CheckNoOffset loc requestTime estimatedDurationSecs).1 = true) := by
  constructor
  · intro h
    exact checks_mono loc (c.Check loc requestOffset requestTime estimatedDurationSecs).2
      (c'.Check loc requestOffset requestTime estimatedDurationSecs).2
      (by simp only [Restriction.Check, hOffset])
      hMonths hWeeks hDaysOfMonth hDaysOfWeek hHours hMinutes h
  · intro h
    exact checks_mono loc (c.CheckNoOffset loc requestTime estimatedDurationSecs).2
      (c'.CheckNoOffset loc requestTime estimatedDurationSecs).2 rfl
      hMonths hWeeks hDaysOfMonth hDaysOfWeek hHours hMinutes h

/-- Witness of C19: `Hours = [6, 13]` against the same with a second hour interval and a
month interval added, reference offset 3, at request time 1609412400 (10:00 after
translation, local zone UTC+2). -/
theorem C19_check_monotone_in_intervals_witness :
    (({ Months := some [{ From := 1, To := 2 }],
        Hours := some [{ From := 20, To := 21 }, { From := 6, To := 13 }],
        GMTOffset := 3 } : Restriction).Check (Location.fixed 7200) 0 1609412400 0).1 = true :=
  (C19_check_monotone_in_intervals (Location.fixed 7200)
    { Hours := some [{ From := 6, To := 13 }], GMTOffset := 3 }
    { Months := some [{ From := 1, To := 2 }],
      Hours := some [{ From := 20, To := 21 }, { From := 6, To := 13 }], GMTOffset := 3 }
    rfl (by simp [Slice.elems]) (by simp [Slice.elems]) (by simp [Slice.elems])
    (by simp [Slice.elems]) (by simp [Slice.elems]) (by simp [Slice.elems])
    0 1609412400 0).1
    (by simp only [Restriction.Check, int64OfFloat_zero_sub_three]; decide)

theorem absSec_week_later (k T T' : Int) (hT : T' = wrap64 (T + 604800))
    (h : (Unix (Location.fixed k) T).absSec + 604800 < 18446744073709551616) :
    (Unix (Location.fixed k) T').abs = (Unix (Location.fixed k) T).abs + 604800 := by
  subst hT
  simp only [Time.abs, Time.absSec, Unix, Location.fixed, unixToAbsolute, internalToAbsolute,
    unixToInternalDays, secondsPerDay, wrap64] at h ⊢
  omega

theorem checks_week_later (loc : Location) (r : Restriction)
    (hMonths : r.Months.elems = []) (hWeeks : r.Weeks.elems = [])
    (hDaysOfMonth : r.DaysOfMonth.elems = []) (T T' : Int)
    (habs : (Unix loc T').abs = (Unix loc T).abs + 604800) :
    ({ r with translatedTime := T' } : Restriction).checks loc =
      ({ r with translatedTime := T } : Restriction).checks loc := by
  have hwd : (Unix loc T').Weekday = (Unix loc T).Weekday := by
    simp only [Time.Weekday, habs, absWeekday, secondsPerDay]
    omega
  have hh : (Unix loc T').Hour = (Unix loc T).Hour := by
    simp only [Time.Hour, habs, absClock, secondsPerDay]
    omega
  have hm : (Unix loc T').Minute = (Unix loc T).Minute := by
    simp only [Time.Minute, habs, absClock, secondsPerDay]
    omega
  have e1 : ∀ x : Int, ({ r with translatedTime := x } : Restriction).checkMonth loc = false := by
    intro x
    rw [← Bool.not_eq_true, checkMonth_iff]
    simp [hMonths]
  have e2 : ∀ x : Int, ({ r with translatedTime := x } : Restriction).checkWeek loc = false := by
    intro x
    rw [← Bool.not_eq_true, checkWeek_iff]
    simp [hWeeks]
  have e3 : ∀ x : Int,
      ({ r with translatedTime := x } : Restriction).checkDayOfMonth loc = false := by
    intro x
    rw [← Bool.not_eq_true, checkDayOfMonth_iff]
    simp [hDaysOfMonth]
  rw [checks_eq_or, checks_eq_or, e1, e2, e3, e1, e2, e3]
  simp only [Restriction.checkDayOfWeek, Restriction.checkHour, Restriction.checkMinute, hwd, hh,
    hm]

/-- C20, as stated, fails on the code where Go's unsigned count of absolute seconds wraps
around.  With only `Hours = [7, 7]`, offsets 0, duration 0 and calendar fields in UTC, the
request time -9223372028741760001 is one second before Go's absolute epoch: the count is
2^64 - 1, its hour of day is 7 and `Check` returns true; one week later the count is 604799,
the hour is 23 and `Check` returns false.  No `int64` sum overflows. -/
theorem C20_weekly_periodicity_fails_at_absolute_epoch :
    inInt64 (-9223372028741760001) ∧ inInt64 (-9223372028741760001 + 604800) ∧
    (Unix (Location.fixed 0) (-9223372028741760001)).absSec = 18446744073709551615 ∧
    (Unix (Location.fixed 0) (-9223372028741760001 + 604800)).absSec = 604799 ∧
    (Unix (Location.fixed 0) (-9223372028741760001)).Hour = 7 ∧
    (Unix (Location.fixed 0) (-9223372028741760001 + 604800)).Hour = 23 ∧
    (({ Hours := some [{ From := 7, To := 7 }] } : Restriction).Check (Location.fixed 0) 0
      (-9223372028741760001) 0).1 = true ∧
    (({ Hours := some [{ From := 7, To := 7 }] } : Restriction).Check (Location.fixed 0) 0
      (-9223372028741760001 + 604800) 0).1 = false := by
  refine ⟨by decide, by decide, by decide, by decide, by decide, by decide, ?_, ?_⟩
  · simp only [Restriction.Check, int64OfFloat_f64Sub_self]
    decide
  · simp only [Restriction.Check, int64OfFloat_f64Sub_self]
    decide

/-- C20, amended. Weekly periodicity: for a configuration whose `Months`, `Weeks` and
`DaysOfMonth` sequences are empty, calendar fields derived at a fixed UTC offset `k`, and
every request offset, request time and duration for which Go's unsigned count of absolute
seconds at the translated instant of `Check(o, t, d)` stays below 2^64 when 604800 is added
(the count does not wrap around within the week), `Check(o, t + 604800, d)` equals
`Check(o, t, d)`. -/
theorem C20_weekly_periodicity_without_wraparound (k : Int) (r : Restriction)
    (hMonths : r.Months.elems = []) (hWeeks : r.Weeks.elems = [])
    (hDaysOfMonth : r.DaysOfMonth.elems = [])
    (requestOffset : ℚ) (requestTime : Int) (estimatedDurationSecs : Nat)
    (hcount : (Unix (Location.fixed k) (r.Check (Location.fixed k) requestOffset requestTime
      estimatedDurationSecs).2.translatedTime).absSec + 604800 < 18446744073709551616) :
    (r.Check (Location.fixed k) requestOffset (requestTime + 604800) estimatedDurationSecs).1 =
      (r.Check (Location.fixed k) requestOffset requestTime estimatedDurationSecs).1 := by
  have h1 := Check_translatedTime (Location.fixed k) r requestOffset requestTime
    estimatedDurationSecs
  have h2 := Check_translatedTime (Location.fixed k) r requestOffset (requestTime + 604800)
    estimatedDurationSecs
  have hT : (r.Check (Location.fixed k) requestOffset (requestTime + 604800)
      estimatedDurationSecs).2.translatedTime =
      wrap64 ((r.Check (Location.fixed k) requestOffset requestTime
        estimatedDurationSecs).2.translatedTime + 604800) := by
    rw [h1, h2]
    generalize int64OfFloat (f64Sub requestOffset r.GMTOffset) * 3600 = m
    unfold wrap64
    omega
  have habs := absSec_week_later k _ _ hT hcount
  exact checks_week_later (Location.fixed k) r hMonths hWeeks hDaysOfMonth _ _ habs

/-- Witness of C20 amended: only `DaysOfWeek = [4, 4]`, reference offset 3, local zone
UTC+2, request offset 0, request time 1609412400 and duration 0. -/
theorem C20_weekly_periodicity_without_wraparound_witness :
    (({ DaysOfWeek := some [{ From := 4, To := 4 }], GMTOffset := 3 } : Restriction).Check
        (Location.fixed 7200) 0 (1609412400 + 604800) 0).1 =
      (({ DaysOfWeek := some [{ From := 4, To := 4 }], GMTOffset := 3 } : Restriction).Check
        (Location.fixed 7200) 0 1609412400 0).1 :=
  C20_weekly_periodicity_without_wraparound 7200
    { DaysOfWeek := some [{ From := 4, To := 4 }], GMTOffset := 3 } rfl rfl rfl 0 1609412400 0
    (by
      simp only [Restriction.Check, int64OfFloat_zero_sub_three]
      decide)

end scheduler
